import Mathlib

/-!
Shallow embedding of the InTrack backend (src/main.py): the approval
state machine for expenses and leaves, expense creation, and the
login / session / current-user path.

Conventions of the embedding:
* Mongo documents become Lean structures; a collection becomes a list of
  `(id, document)` pairs with first-match `find_one` / `update_one`
  semantics, matching the source's use of unique ObjectIds.
* `datetime` timestamps become `Nat` parameters: each handler receives the
  clock value `now` it would read via `_now()` (the handler's two `_now()`
  calls happen in the same request; they are modelled by one value).
* HTTP exceptions become an `ApiError` value carrying the detail string;
  a handler that raises before writing returns the store unchanged.
* Strings stay strings: statuses, roles and actions are the string values
  the source compares against, with the regex-validated vocabularies
  (`^(approve|reject)$`, role pattern) appearing as hypotheses.
* `amount` is an IEEE float in the source; no endpoint computes with it,
  so it is carried through as Lean's `Float` and never compared.
-/

/-- Error raised via `HTTPException`: status code family plus detail string. -/
inductive ApiError where
  | unauthenticated (detail : String)
  | forbidden (detail : String)
  | notFound (detail : String)
  deriving DecidableEq, Repr

/-- One entry of an expense's `approvals` audit list (src/main.py:294-300).
`by_`/`at_` carry the source's `by`/`at` keys, which are Lean keywords. -/
structure Approval where
  by_ : String
  role : String
  action : String
  note : Option String
  at_ : Nat
  deriving DecidableEq, Repr

/-- An expense document as created by `create_expense` (src/main.py:252-259). -/
structure Expense where
  project_id : String
  amount : Float
  currency : String
  description : Option String
  status : String
  requested_by : String
  approvals : List Approval
  created_at : Nat
  updated_at : Nat

/-- Request body `ExpenseIn` (src/main.py:237-241). -/
structure ExpenseIn where
  project_id : String
  amount : Float
  currency : String
  description : Option String

/-- The expense collection: documents keyed by their ObjectId string. -/
abbrev ExpenseStore := List (String × Expense)

/-- `find_one({"_id": ObjectId(eid)})` on the expense collection:
first document whose id matches. -/
def findExpense (store : ExpenseStore) (eid : String) : Option Expense :=
  (store.find? (fun p => p.1 == eid)).map Prod.snd

/-- `update_one({"_id": ObjectId(eid)}, ...)`: replace the first document
whose id matches, leave the rest untouched. -/
def updateExpense : ExpenseStore → String → Expense → ExpenseStore
  | [], _, _ => []
  | p :: rest, eid, e =>
    if p.1 = eid then (p.1, e) :: rest else p :: updateExpense rest eid e

/-- The expense document created by POST /expenses (src/main.py:252-259):
initial status `pending_manager`, empty approvals list. -/
def newExpense (payload : ExpenseIn) (userId : String) (now : Nat) : Expense :=
  { project_id := payload.project_id
    amount := payload.amount
    currency := payload.currency
    description := payload.description
    status := "pending_manager"
    requested_by := userId
    approvals := []
    created_at := now
    updated_at := now }

/-- POST /expenses (src/main.py:250-261). `require_roles("Engineer",
"Manager", "Admin")` runs before the handler body. -/
def create_expense (payload : ExpenseIn) (role userId : String) (now : Nat) :
    Except ApiError Expense :=
  if ¬(role = "Engineer" ∨ role = "Manager" ∨ role = "Admin") then
    .error (.forbidden "Forbidden")
  else
    .ok (newExpense payload userId now)

/-- The audit entry `approval_entry` built at src/main.py:294-300. -/
def decisionEntry (userId role action : String) (note : Option String) (now : Nat) :
    Approval :=
  { by_ := userId, role := role, action := action, note := note, at_ := now }

/-- The write performed at src/main.py:285-305 once both role gates have
passed: compute `new_status` from the action and the current status,
`$push` one audit entry, `$set` status and `updated_at`. -/
def expenseDecision (exp : Expense) (role userId action : String)
    (note : Option String) (now : Nat) : Expense :=
  { exp with
    status :=
      if action = "reject" then "rejected"
      else if exp.status = "pending_manager" then "pending_accountant"
      else if exp.status = "pending_accountant" then "approved"
      else exp.status
    approvals := exp.approvals ++ [decisionEntry userId role action note now]
    updated_at := now }

/-- POST /expenses/\x7bid\x7d/approve (src/main.py:269-317). Returns the
collection after the call together with the HTTP outcome; a raised
`HTTPException` leaves the collection as it was (no write has happened). -/
def approve_expense (store : ExpenseStore) (eid role userId action : String)
    (note : Option String) (now : Nat) : ExpenseStore × Except ApiError Expense :=
  match findExpense store eid with
  | none => (store, .error (.notFound "Expense not found"))
  | some exp =>
    if exp.status = "pending_manager" ∧ ¬(role = "Manager" ∨ role = "Admin") then
      (store, .error (.forbidden "Manager approval required"))
    else if exp.status = "pending_accountant" ∧ ¬(role = "Accountant" ∨ role = "Admin") then
      (store, .error (.forbidden "Accountant approval required"))
    else
      let exp' := expenseDecision exp role userId action note now
      (updateExpense store eid exp', .ok exp')

/-- A leave document as created by `request_leave` (src/main.py:353-359).
The source document has no `approvals` key, and `approve_leave` only
`$set`s `status` and `updated_at` (src/main.py:371), so the audit list of
a leave — had the schema tracked one — is empty at creation and is never
extended; the field below makes that visible. -/
structure Leave where
  start_date : String
  end_date : String
  reason : Option String
  status : String
  user_id : String
  approvals : List Approval
  created_at : Nat
  updated_at : Nat
  deriving DecidableEq, Repr

/-- The leave document created by POST /leaves (src/main.py:353-359):
initial status `pending_manager`. -/
def newLeave (start_date end_date : String) (reason : Option String)
    (userId : String) (now : Nat) : Leave :=
  { start_date := start_date
    end_date := end_date
    reason := reason
    status := "pending_manager"
    user_id := userId
    approvals := []
    created_at := now
    updated_at := now }

/-- The write performed by `approve_leave` (src/main.py:370-371):
`new_status = "approved" if body.action == "approve" else "rejected"`, then
`$set` status and `updated_at` only — nothing is pushed to any audit list. -/
def leaveDecision (leave : Leave) (action : String) (now : Nat) : Leave :=
  { leave with
    status := if action = "approve" then "approved" else "rejected"
    updated_at := now }

/-- POST /leaves/\x7bid\x7d/approve (src/main.py:364-373).
`require_roles("Manager", "Admin")` runs before the handler body; the
request's `note` is accepted by `ApproveBody` but never read. -/
def approve_leave (leave? : Option Leave) (role userId action : String)
    (note : Option String) (now : Nat) : Except ApiError Leave :=
  if ¬(role = "Manager" ∨ role = "Admin") then
    .error (.forbidden "Forbidden")
  else
    match leave? with
    | none => .error (.notFound "Leave not found")
    | some leave => .ok (leaveDecision leave action now)

/-- A user document as created by `register` (src/main.py:116-124);
`id` is the stringified Mongo `_id`. The source stores the password in
plain text. -/
structure User where
  id : String
  name : String
  email : String
  password : String
  role : String
  deriving DecidableEq, Repr

/-- A session document as created by `login` (src/main.py:135-139). -/
structure Session where
  token : String
  user_id : String
  deriving DecidableEq, Repr

/-- The user and session collections consumed by the auth endpoints. -/
structure AuthDb where
  users : List User
  sessions : List Session
  deriving DecidableEq, Repr

/-- The `UserOut` shape returned by /auth/me (src/main.py:36-40,145). -/
structure UserOut where
  id : String
  name : String
  email : String
  role : String
  deriving DecidableEq, Repr

/-- `find_one({"email": email})` on the user collection (src/main.py:131). -/
def find_user_by_email (users : List User) (email : String) : Option User :=
  users.find? (fun u => u.email == email)

/-- `find_one({"token": token})` on the session collection (src/main.py:57). -/
def find_session (sessions : List Session) (token : String) : Option Session :=
  sessions.find? (fun s => s.token == token)

/-- `find_one({"_id": session["user_id"]})` on the user collection
(src/main.py:60). -/
def find_user_by_id (users : List User) (uid : String) : Option User :=
  users.find? (fun u => u.id == uid)

/-- POST /auth/login (src/main.py:129-140). The fresh `str(uuid4())` token
is a parameter; on success a session document is inserted and the token is
returned with the user's public fields. A failed login inserts nothing. -/
def login (db : AuthDb) (email password token : String) :
    AuthDb × Except ApiError (String × UserOut) :=
  match find_user_by_email db.users email with
  | none => (db, .error (.unauthenticated "Invalid credentials"))
  | some u =>
    if u.password ≠ password then
      (db, .error (.unauthenticated "Invalid credentials"))
    else
      ({ db with sessions := db.sessions ++ [{ token := token, user_id := u.id }] },
       .ok (token, { id := u.id, name := u.name, email := u.email, role := u.role }))

/-- Python `s.lower()`: lower-case every code point. -/
def pyLower (s : String) : String := ⟨s.data.map Char.toLower⟩

/-- Python `s.startswith(p)`: the first argument read at the start of the
second, code point by code point. -/
def matchesAtStart : List Char → List Char → Bool
  | [], _ => true
  | _ :: _, [] => false
  | p :: ps, c :: cs => p == c && matchesAtStart ps cs

/-- Python `s.split(" ", 1)[1]`: everything after the first space. -/
def afterFirstSpace : List Char → List Char
  | [] => []
  | c :: cs => if c = ' ' then cs else afterFirstSpace cs

/-- The header check and token extraction of `get_current_user`
(src/main.py:54-56): require a case-insensitive `bearer ` start, then take
everything after the first space (`split(" ", 1)[1]`). -/
def parse_bearer (authorization : Option String) : Except ApiError String :=
  match authorization with
  | none => .error (.unauthenticated "Not authenticated")
  | some h =>
    if matchesAtStart "bearer ".data (pyLower h).data then
      .ok ⟨afterFirstSpace h.data⟩
    else
      .error (.unauthenticated "Not authenticated")

/-- The session and user lookups of `get_current_user` (src/main.py:57-68). -/
def lookup_user (db : AuthDb) (token : String) : Except ApiError UserOut :=
  match find_session db.sessions token with
  | none => .error (.unauthenticated "Invalid session")
  | some s =>
    match find_user_by_id db.users s.user_id with
    | none => .error (.unauthenticated "User not found")
    | some u => .ok { id := u.id, name := u.name, email := u.email, role := u.role }

/-- `get_current_user` (src/main.py:53-68), which is also what GET /auth/me
returns (src/main.py:143-145). -/
def get_current_user (db : AuthDb) (authorization : Option String) :
    Except ApiError UserOut :=
  match parse_bearer authorization with
  | .error e => .error e
  | .ok token => lookup_user db token

/-- The error the approve endpoint raises on its failure paths
(src/main.py:274, 281, 283), as a function of the lookup result. -/
def approveFailure (exp? : Option Expense) : ApiError :=
  match exp? with
  | none => .notFound "Expense not found"
  | some exp =>
      .forbidden
        (if exp.status = "pending_manager" then "Manager approval required"
         else "Accountant approval required")

/-! ### Concrete fixtures, mirroring the scenario of spec §8 -/

/-- A freshly created expense: the §8 scenario's
`\x7bproject_id: "P1", amount: 100.0, currency: "USD"\x7d`. -/
def expPM : Expense :=
  newExpense { project_id := "P1", amount := 100.0, currency := "USD",
               description := none } "e1" 0

/-- The same expense after the manager stage. -/
def expPA : Expense := { expPM with status := "pending_accountant" }

/-- The same expense in the terminal `approved` state. -/
def expApproved : Expense := { expPM with status := "approved" }

/-- A pending leave request. -/
def leave1 : Leave := newLeave "2025-01-01" "2025-01-05" none "e1" 0

/-- A registered user. -/
def user1 : User :=
  { id := "u1", name := "Ann", email := "ann@x.test", password := "secret1",
    role := "Engineer" }

/-- A user collection holding `user1` and no sessions yet. -/
def db1 : AuthDb := { users := [user1], sessions := [] }

/-! ### Helper lemmas on the approval endpoint -/

/-- When the expense resolves and both role gates pass, `approve_expense`
performs exactly the `expenseDecision` write and returns the updated
document. -/
theorem approve_expense_ok (store : ExpenseStore) (eid role userId action : String)
    (note : Option String) (now : Nat) (exp : Expense)
    (hfind : findExpense store eid = some exp)
    (h1 : ¬(exp.status = "pending_manager" ∧ ¬(role = "Manager" ∨ role = "Admin")))
    (h2 : ¬(exp.status = "pending_accountant" ∧ ¬(role = "Accountant" ∨ role = "Admin"))) :
    approve_expense store eid role userId action note now =
      (updateExpense store eid (expenseDecision exp role userId action note now),
       .ok (expenseDecision exp role userId action note now)) := by
  unfold approve_expense
  rw [hfind]
  simp only [h1, h2, if_neg, not_false_iff]

/-- When the expense resolves to `pending_manager` and the actor is neither
Manager nor Admin, `approve_expense` raises 403 before writing. -/
theorem approve_expense_forbidden_pm (store : ExpenseStore)
    (eid role userId action : String) (note : Option String) (now : Nat) (exp : Expense)
    (hfind : findExpense store eid = some exp)
    (hstatus : exp.status = "pending_manager")
    (hrole : ¬(role = "Manager" ∨ role = "Admin")) :
    approve_expense store eid role userId action note now =
      (store, .error (.forbidden "Manager approval required")) := by
  unfold approve_expense
  rw [hfind]
  dsimp only
  rw [if_pos ⟨hstatus, hrole⟩]

/-- When the expense resolves to `pending_accountant` and the actor is
neither Accountant nor Admin, `approve_expense` raises 403 before writing. -/
theorem approve_expense_forbidden_pa (store : ExpenseStore)
    (eid role userId action : String) (note : Option String) (now : Nat) (exp : Expense)
    (hfind : findExpense store eid = some exp)
    (hstatus : exp.status = "pending_accountant")
    (hrole : ¬(role = "Accountant" ∨ role = "Admin")) :
    approve_expense store eid role userId action note now =
      (store, .error (.forbidden "Accountant approval required")) := by
  unfold approve_expense
  rw [hfind]
  dsimp only
  rw [if_neg, if_pos ⟨hstatus, hrole⟩]
  rintro ⟨hpm, -⟩
  rw [hstatus] at hpm
  exact absurd hpm (by decide)

/-! ### C1: decisions against terminal-state expenses -/

/-- C1 (counterexample): the claim says both actions leave a
terminal-state expense's status unchanged, but a `reject` action against
an `approved` expense changes its status to `rejected`
(src/main.py:286-287 runs before any terminal-state guard, of which there
is none). -/
theorem terminal_reject_flips_approved_cex :
    (approve_expense [("x1", expApproved)] "x1" "Engineer" "u1" "reject" none 9).2 =
      .ok (expenseDecision expApproved "Engineer" "u1" "reject" none 9) ∧
    expApproved.status = "approved" ∧
    (expenseDecision expApproved "Engineer" "u1" "reject" none 9).status = "rejected" :=
  ⟨rfl, rfl, rfl⟩

/-- C1 (amended): for every expense in a terminal state (`approved` or
`rejected`), a decision by any role succeeds and appends exactly one more
audit entry; an `approve` action leaves the status unchanged, while a
`reject` action sets the status to `rejected` — which changes it when the
expense was `approved`. -/
theorem terminal_decision_appends_entry (store : ExpenseStore)
    (eid role userId action : String) (note : Option String) (now : Nat)
    (exp : Expense)
    (hfind : findExpense store eid = some exp)
    (hterm : exp.status = "approved" ∨ exp.status = "rejected") :
    (approve_expense store eid role userId action note now).2 =
      .ok (expenseDecision exp role userId action note now) ∧
    (expenseDecision exp role userId action note now).approvals.length =
      exp.approvals.length + 1 ∧
    (expenseDecision exp role userId action note now).status =
      (if action = "reject" then "rejected" else exp.status) := by
  have h1 : ¬(exp.status = "pending_manager" ∧ ¬(role = "Manager" ∨ role = "Admin")) := by
    rcases hterm with h | h <;> rw [h] <;> rintro ⟨hpm, -⟩ <;> exact absurd hpm (by decide)
  have h2 : ¬(exp.status = "pending_accountant" ∧ ¬(role = "Accountant" ∨ role = "Admin")) := by
    rcases hterm with h | h <;> rw [h] <;> rintro ⟨hpa, -⟩ <;> exact absurd hpa (by decide)
  refine ⟨?_, ?_, ?_⟩
  · rw [approve_expense_ok store eid role userId action note now exp hfind h1 h2]
  · simp [expenseDecision]
  · rcases hterm with h | h <;> simp [expenseDecision, h]

/-- C1 witness: the amended statement instantiated on a concrete approved
expense and an `approve` decision. -/
theorem terminal_decision_appends_entry_witness :
    (approve_expense [("x1", expApproved)] "x1" "Engineer" "u2" "approve" none 9).2 =
      .ok (expenseDecision expApproved "Engineer" "u2" "approve" none 9) ∧
    (expenseDecision expApproved "Engineer" "u2" "approve" none 9).approvals.length =
      expApproved.approvals.length + 1 ∧
    (expenseDecision expApproved "Engineer" "u2" "approve" none 9).status =
      (if "approve" = "reject" then "rejected" else expApproved.status) :=
  terminal_decision_appends_entry [("x1", expApproved)] "x1" "Engineer" "u2"
    "approve" none 9 expApproved rfl (Or.inl rfl)

/-! ### C2: reject from a pending state -/

/-- C2 (counterexample): the claim says a `reject` transitions a pending
expense regardless of the role eligibility check, but the role gates at
src/main.py:280-283 raise 403 before the action is even read: an
Accountant rejecting a `pending_manager` expense gets Forbidden and the
expense is untouched. -/
theorem pending_reject_role_gate_cex :
    approve_expense [("x1", expPM)] "x1" "Accountant" "a1" "reject" none 9 =
      ([("x1", expPM)], .error (.forbidden "Manager approval required")) ∧
    expPM.status = "pending_manager" :=
  ⟨rfl, rfl⟩

/-- C2 (amended): for every expense in a pending state, a `reject` action
by an actor who passes the role eligibility check for that state
transitions the expense to `rejected` and appends one audit entry. -/
theorem pending_reject_eligible_transitions (store : ExpenseStore)
    (eid role userId : String) (note : Option String) (now : Nat) (exp : Expense)
    (hfind : findExpense store eid = some exp)
    (hgate : (exp.status = "pending_manager" ∧ (role = "Manager" ∨ role = "Admin")) ∨
             (exp.status = "pending_accountant" ∧ (role = "Accountant" ∨ role = "Admin"))) :
    (approve_expense store eid role userId "reject" note now).2 =
      .ok (expenseDecision exp role userId "reject" note now) ∧
    (expenseDecision exp role userId "reject" note now).status = "rejected" ∧
    (expenseDecision exp role userId "reject" note now).approvals.length =
      exp.approvals.length + 1 := by
  have h1 : ¬(exp.status = "pending_manager" ∧ ¬(role = "Manager" ∨ role = "Admin")) := by
    rcases hgate with ⟨hs, hr⟩ | ⟨hs, hr⟩
    · exact fun hc => hc.2 hr
    · rw [hs]; rintro ⟨hpm, -⟩; exact absurd hpm (by decide)
  have h2 : ¬(exp.status = "pending_accountant" ∧ ¬(role = "Accountant" ∨ role = "Admin")) := by
    rcases hgate with ⟨hs, hr⟩ | ⟨hs, hr⟩
    · rw [hs]; rintro ⟨hpa, -⟩; exact absurd hpa (by decide)
    · exact fun hc => hc.2 hr
  refine ⟨?_, ?_, ?_⟩
  · rw [approve_expense_ok store eid role userId "reject" note now exp hfind h1 h2]
  · simp [expenseDecision]
  · simp [expenseDecision]

/-- C2 witness: the amended statement instantiated with a Manager
rejecting a concrete `pending_manager` expense. -/
theorem pending_reject_eligible_transitions_witness :
    (approve_expense [("x1", expPM)] "x1" "Manager" "m1" "reject" none 9).2 =
      .ok (expenseDecision expPM "Manager" "m1" "reject" none 9) ∧
    (expenseDecision expPM "Manager" "m1" "reject" none 9).status = "rejected" ∧
    (expenseDecision expPM "Manager" "m1" "reject" none 9).approvals.length =
      expPM.approvals.length + 1 :=
  pending_reject_eligible_transitions [("x1", expPM)] "x1" "Manager" "m1" none 9
    expPM rfl (Or.inl ⟨rfl, Or.inl rfl⟩)

/-! ### C9: no Forbidden in terminal states -/

/-- C9: for every expense already in a terminal state, the approve
endpoint never fails Forbidden — the role gates at src/main.py:280-283
fire only in the two pending states, so a decision by any role succeeds. -/
theorem terminal_state_no_forbidden (store : ExpenseStore)
    (eid role userId action : String) (note : Option String) (now : Nat)
    (exp : Expense)
    (hfind : findExpense store eid = some exp)
    (hterm : exp.status = "approved" ∨ exp.status = "rejected") :
    (approve_expense store eid role userId action note now).2 =
      .ok (expenseDecision exp role userId action note now) := by
  have h1 : ¬(exp.status = "pending_manager" ∧ ¬(role = "Manager" ∨ role = "Admin")) := by
    rcases hterm with h | h <;> rw [h] <;> rintro ⟨hpm, -⟩ <;> exact absurd hpm (by decide)
  have h2 : ¬(exp.status = "pending_accountant" ∧ ¬(role = "Accountant" ∨ role = "Admin")) := by
    rcases hterm with h | h <;> rw [h] <;> rintro ⟨hpa, -⟩ <;> exact absurd hpa (by decide)
  rw [approve_expense_ok store eid role userId action note now exp hfind h1 h2]

/-- C9 witness: an Engineer — a role that passes no gate — successfully
submits a decision against a concrete `approved` expense. -/
theorem terminal_state_no_forbidden_witness :
    (approve_expense [("x1", expApproved)] "x1" "Engineer" "u3" "approve" (some "again") 9).2 =
      .ok (expenseDecision expApproved "Engineer" "u3" "approve" (some "again") 9) :=
  terminal_state_no_forbidden [("x1", expApproved)] "x1" "Engineer" "u3" "approve"
    (some "again") 9 expApproved rfl (Or.inl rfl)

/-! ### C4: the manager gate on `pending_manager` -/

/-- C4: on a `pending_manager` expense, an `approve` by a Manager or
Admin transitions it to `pending_accountant`; an `approve` by an
Accountant raises Forbidden and leaves the collection — hence the
expense — exactly as it was. -/
theorem pending_manager_approve_gate (store : ExpenseStore)
    (eid role userId aId : String) (note : Option String) (now : Nat)
    (exp : Expense)
    (hfind : findExpense store eid = some exp)
    (hstatus : exp.status = "pending_manager")
    (hrole : role = "Manager" ∨ role = "Admin") :
    (approve_expense store eid role userId "approve" note now).2 =
      .ok (expenseDecision exp role userId "approve" note now) ∧
    (expenseDecision exp role userId "approve" note now).status =
      "pending_accountant" ∧
    approve_expense store eid "Accountant" aId "approve" note now =
      (store, .error (.forbidden "Manager approval required")) := by
  have h1 : ¬(exp.status = "pending_manager" ∧ ¬(role = "Manager" ∨ role = "Admin")) :=
    fun hc => hc.2 hrole
  have h2 : ¬(exp.status = "pending_accountant" ∧ ¬(role = "Accountant" ∨ role = "Admin")) := by
    rw [hstatus]; rintro ⟨hpa, -⟩; exact absurd hpa (by decide)
  refine ⟨?_, ?_, ?_⟩
  · rw [approve_expense_ok store eid role userId "approve" note now exp hfind h1 h2]
  · simp [expenseDecision, hstatus]
  · exact approve_expense_forbidden_pm store eid "Accountant" aId "approve" note now
      exp hfind hstatus (by rintro (h | h) <;> exact absurd h (by decide))

/-- C4 witness: the gate instantiated on a concrete `pending_manager`
expense, with the Manager succeeding and the Accountant refused. -/
theorem pending_manager_approve_gate_witness :
    (approve_expense [("x1", expPM)] "x1" "Manager" "m1" "approve" none 5).2 =
      .ok (expenseDecision expPM "Manager" "m1" "approve" none 5) ∧
    (expenseDecision expPM "Manager" "m1" "approve" none 5).status =
      "pending_accountant" ∧
    approve_expense [("x1", expPM)] "x1" "Accountant" "a1" "approve" none 5 =
      ([("x1", expPM)], .error (.forbidden "Manager approval required")) :=
  pending_manager_approve_gate [("x1", expPM)] "x1" "Manager" "m1" "a1" none 5
    expPM rfl rfl (Or.inl rfl)

/-! ### C5: the accountant stage approves -/

/-- C5: on a `pending_accountant` expense, an `approve` by an Accountant
or Admin transitions it to `approved`, and the write appends exactly one
audit entry — the approvals list grows by precisely the one entry built at
src/main.py:294-300. -/
theorem pending_accountant_approve (store : ExpenseStore)
    (eid role userId : String) (note : Option String) (now : Nat) (exp : Expense)
    (hfind : findExpense store eid = some exp)
    (hstatus : exp.status = "pending_accountant")
    (hrole : role = "Accountant" ∨ role = "Admin") :
    (approve_expense store eid role userId "approve" note now).2 =
      .ok (expenseDecision exp role userId "approve" note now) ∧
    (expenseDecision exp role userId "approve" note now).status = "approved" ∧
    (expenseDecision exp role userId "approve" note now).approvals =
      exp.approvals ++ [decisionEntry userId role "approve" note now] := by
  have h1 : ¬(exp.status = "pending_manager" ∧ ¬(role = "Manager" ∨ role = "Admin")) := by
    rw [hstatus]; rintro ⟨hpm, -⟩; exact absurd hpm (by decide)
  have h2 : ¬(exp.status = "pending_accountant" ∧ ¬(role = "Accountant" ∨ role = "Admin")) :=
    fun hc => hc.2 hrole
  refine ⟨?_, ?_, rfl⟩
  · rw [approve_expense_ok store eid role userId "approve" note now exp hfind h1 h2]
  · simp [expenseDecision, hstatus]

/-- C5 witness: an Accountant approving a concrete `pending_accountant`
expense. -/
theorem pending_accountant_approve_witness :
    (approve_expense [("x1", expPA)] "x1" "Accountant" "a1" "approve" none 6).2 =
      .ok (expenseDecision expPA "Accountant" "a1" "approve" none 6) ∧
    (expenseDecision expPA "Accountant" "a1" "approve" none 6).status = "approved" ∧
    (expenseDecision expPA "Accountant" "a1" "approve" none 6).approvals =
      expPA.approvals ++ [decisionEntry "a1" "Accountant" "approve" none 6] :=
  pending_accountant_approve [("x1", expPA)] "x1" "Accountant" "a1" none 6
    expPA rfl rfl (Or.inl rfl)

/-! ### C6: initial state of a created expense -/

/-- C6: POST /expenses by an Engineer, Manager or Admin creates the
expense in status `pending_manager` with an empty approvals list
(src/main.py:252-259). -/
theorem create_expense_initial_state (payload : ExpenseIn)
    (role userId : String) (now : Nat)
    (hrole : role = "Engineer" ∨ role = "Manager" ∨ role = "Admin") :
    create_expense payload role userId now = .ok (newExpense payload userId now) ∧
    (newExpense payload userId now).status = "pending_manager" ∧
    (newExpense payload userId now).approvals = [] := by
  refine ⟨?_, rfl, rfl⟩
  unfold create_expense
  rw [if_neg (not_not_intro hrole)]

/-- C6 witness: an Engineer creating the §8 scenario expense. -/
theorem create_expense_initial_state_witness :
    create_expense { project_id := "P1", amount := 100.0, currency := "USD",
                     description := none } "Engineer" "e1" 0 =
      .ok (newExpense { project_id := "P1", amount := 100.0, currency := "USD",
                        description := none } "e1" 0) ∧
    (newExpense { project_id := "P1", amount := 100.0, currency := "USD",
                  description := none } "e1" 0).status = "pending_manager" ∧
    (newExpense { project_id := "P1", amount := 100.0, currency := "USD",
                  description := none } "e1" 0).approvals = [] :=
  create_expense_initial_state _ "Engineer" "e1" 0 (Or.inl rfl)

/-! ### C7: failure paths perform no write -/

/-- C7: the approve endpoint answers "not found" when the id does not
resolve and "forbidden" when the acting role fails the precondition for
the current pending state, and in either failure case it returns the
collection unchanged — the exception at src/main.py:274/281/283 is raised
before the update at src/main.py:302, so status and approvals are exactly
as before. -/
theorem approve_expense_failure_no_write (store : ExpenseStore)
    (eid role userId action : String) (note : Option String) (now : Nat)
    (exp? : Option Expense)
    (hfind : findExpense store eid = exp?)
    (hfail : exp? = none ∨
      ∃ exp, exp? = some exp ∧
        ((exp.status = "pending_manager" ∧ ¬(role = "Manager" ∨ role = "Admin")) ∨
         (exp.status = "pending_accountant" ∧ ¬(role = "Accountant" ∨ role = "Admin")))) :
    approve_expense store eid role userId action note now =
      (store, .error (approveFailure exp?)) := by
  rcases hfail with hnone | ⟨exp, hsome, hgate⟩
  · subst hnone
    unfold approve_expense approveFailure
    rw [hfind]
  · subst hsome
    rcases hgate with ⟨hs, hr⟩ | ⟨hs, hr⟩
    · rw [approve_expense_forbidden_pm store eid role userId action note now exp hfind hs hr]
      dsimp only [approveFailure]
      rw [if_pos hs]
    · rw [approve_expense_forbidden_pa store eid role userId action note now exp hfind hs hr]
      dsimp only [approveFailure]
      rw [if_neg (by rw [hs]; decide)]

/-- C7 witness: the not-found case on an empty collection. -/
theorem approve_expense_failure_no_write_witness :
    approve_expense [] "missing" "Admin" "u1" "approve" none 3 =
      ([], .error (approveFailure none)) :=
  approve_expense_failure_no_write [] "missing" "Admin" "u1" "approve" none 3
    none rfl (Or.inl rfl)

/-! ### C3: side effects of a leave decision -/

/-- C3 (counterexample): the claim says every successful leave decision
appends an Approval entry to the leave's audit log, but `approve_leave`
(src/main.py:370-371) only `$set`s `status` and `updated_at` — after a
Manager approves a concrete pending leave, giving actor, action and note,
the leave carries no audit entry at all. -/
theorem leave_decision_no_audit_cex :
    approve_leave (some leave1) "Manager" "m1" "approve" (some "ok") 7 =
      .ok (leaveDecision leave1 "approve" 7) ∧
    (leaveDecision leave1 "approve" 7).approvals = [] ∧
    (leaveDecision leave1 "approve" 7).updated_at = 7 :=
  ⟨rfl, rfl, rfl⟩

/-- C3 (amended): every successful leave approval decision sets the
leave's status according to the action and updates the leave's
last-modified timestamp, but appends no Approval entry — the leave's
audit list is exactly what it was. -/
theorem leave_decision_updates_no_audit (l : Leave) (role userId action : String)
    (note : Option String) (now : Nat)
    (hrole : role = "Manager" ∨ role = "Admin") :
    approve_leave (some l) role userId action note now =
      .ok (leaveDecision l action now) ∧
    (leaveDecision l action now).updated_at = now ∧
    (leaveDecision l action now).approvals = l.approvals := by
  refine ⟨?_, rfl, rfl⟩
  unfold approve_leave
  rw [if_neg (not_not_intro hrole)]

/-- C3 witness: an Admin rejecting a concrete pending leave with a note. -/
theorem leave_decision_updates_no_audit_witness :
    approve_leave (some leave1) "Admin" "ad1" "reject" (some "no") 8 =
      .ok (leaveDecision leave1 "reject" 8) ∧
    (leaveDecision leave1 "reject" 8).updated_at = 8 ∧
    (leaveDecision leave1 "reject" 8).approvals = leave1.approvals :=
  leave_decision_updates_no_audit leave1 "Admin" "ad1" "reject" (some "no") 8
    (Or.inr rfl)

/-! ### C10: a leave's resulting status depends only on the action -/

/-- C10: for a caller passing the Manager/Admin gate, the status a leave
decision produces is `approved` for action `approve` and `rejected`
otherwise, computed at src/main.py:370 without ever reading the leave's
current status — two leaves in arbitrary (even terminal) states end up
with the same status under the same action. -/
theorem leave_status_only_action (l l2 : Leave) (role userId action : String)
    (note : Option String) (now now2 : Nat)
    (hrole : role = "Manager" ∨ role = "Admin") :
    approve_leave (some l) role userId action note now =
      .ok (leaveDecision l action now) ∧
    (leaveDecision l action now).status =
      (if action = "approve" then "approved" else "rejected") ∧
    (leaveDecision l action now).status = (leaveDecision l2 action now2).status := by
  refine ⟨?_, rfl, rfl⟩
  unfold approve_leave
  rw [if_neg (not_not_intro hrole)]

/-- C10 witness: approving an already rejected leave still yields
`approved`, matching the result on a pending leave. -/
theorem leave_status_only_action_witness :
    approve_leave (some { leave1 with status := "rejected" }) "Manager" "m1"
        "approve" none 9 =
      .ok (leaveDecision { leave1 with status := "rejected" } "approve" 9) ∧
    (leaveDecision { leave1 with status := "rejected" } "approve" 9).status =
      (if "approve" = "approve" then "approved" else "rejected") ∧
    (leaveDecision { leave1 with status := "rejected" } "approve" 9).status =
      (leaveDecision leave1 "approve" 3).status :=
  leave_status_only_action { leave1 with status := "rejected" } leave1 "Manager"
    "m1" "approve" none 9 3 (Or.inl rfl)

/-! ### C8: login / me round trip -/

/-- A `find_one` that misses the existing sessions continues into anything
inserted afterwards. -/
theorem find_session_append_of_none (l1 l2 : List Session) (tok : String)
    (h : find_session l1 tok = none) :
    find_session (l1 ++ l2) tok = find_session l2 tok := by
  induction l1 with
  | nil => rfl
  | cons s rest ih =>
    simp only [find_session, List.cons_append, List.find?] at h ⊢
    cases hst : (s.token == tok) <;> rw [hst] at h <;> dsimp only at h ⊢
    · exact ih h
    · exact absurd h (by simp)

/-- C8: for a registered user, login with a wrong password fails
Unauthenticated and inserts nothing; login with the correct password
inserts a session for the fresh token, and presenting that token as a
bearer header to `get_current_user` (the body of GET /auth/me) resolves it
back to the same user's id, name, email and role. -/
theorem login_me_roundtrip (db : AuthDb) (u : User) (p tok hdr : String)
    (hfind : find_user_by_email db.users u.email = some u)
    (hid : find_user_by_id db.users u.id = some u)
    (hwrong : p ≠ u.password)
    (hfresh : find_session db.sessions tok = none)
    (hhdr : parse_bearer (some hdr) = .ok tok) :
    (login db u.email p tok).2 = .error (.unauthenticated "Invalid credentials") ∧
    (login db u.email u.password tok).2 =
      .ok (tok, { id := u.id, name := u.name, email := u.email, role := u.role }) ∧
    get_current_user (login db u.email u.password tok).1 (some hdr) =
      .ok { id := u.id, name := u.name, email := u.email, role := u.role } := by
  have hlogin : login db u.email u.password tok =
      ({ db with sessions := db.sessions ++ [{ token := tok, user_id := u.id }] },
       .ok (tok, { id := u.id, name := u.name, email := u.email, role := u.role })) := by
    unfold login
    rw [hfind]
    dsimp only
    rw [if_neg (fun hne => hne rfl)]
  refine ⟨?_, ?_, ?_⟩
  · unfold login
    rw [hfind]
    dsimp only
    rw [if_pos (fun heq => hwrong heq.symm)]
  · rw [hlogin]
  · rw [hlogin]
    unfold get_current_user
    rw [hhdr]
    unfold lookup_user
    dsimp only
    rw [find_session_append_of_none db.sessions _ tok hfresh]
    have hone : find_session [{ token := tok, user_id := u.id }] tok =
        some { token := tok, user_id := u.id } := by
      simp [find_session, List.find?]
    rw [hone]
    dsimp only
    rw [hid]

/-- C8 witness: the round trip run on a concrete one-user directory with
the token `t1` presented as `Bearer t1`. -/
theorem login_me_roundtrip_witness :
    (login db1 user1.email "nope" "t1").2 =
      .error (.unauthenticated "Invalid credentials") ∧
    (login db1 user1.email user1.password "t1").2 =
      .ok ("t1", { id := user1.id, name := user1.name, email := user1.email,
                   role := user1.role }) ∧
    get_current_user (login db1 user1.email user1.password "t1").1
        (some "Bearer t1") =
      .ok { id := user1.id, name := user1.name, email := user1.email,
            role := user1.role } :=
  login_me_roundtrip db1 user1 "nope" "t1" "Bearer t1" rfl rfl (by decide) rfl rfl
